import Mathlib

set_option maxRecDepth 100000

/-!
Shallow embedding of `src/components/ImageToLatexConverter.js`, the single
React component of the image-to-latex-converter repository.

The component's hook state becomes an explicit record `ConvState`; each event
handler becomes a pure state-transition function.  Asynchronous completions
(the preview `FileReader`, the base64 read, the `fetch` call and its parsed
body) are supplied as explicit outcome parameters, so one Lean transition
models one user action together with the resolution of the awaits it spawns.
JavaScript `parseInt` / `NaN` arithmetic is modelled with `Option Int`
(`none` = `NaN`), and JavaScript truthiness of strings with comparison
against `""`.
-/

/-- A browser `File` object as the component consumes it: the fields read by
the code are `name`, `type` (browser-reported MIME string) and `size`
(bytes). -/
structure File where
  name : String
  type : String
  size : Nat
deriving DecidableEq, Repr

/-- The component's hook state (lines 5-13 of the source): `image`,
`imagePreview`, `instructions`, `latexCode`, `isConverting`, `copySuccess`,
`error`, `dragActive`, plus the file-input DOM value held via `fileInputRef`. -/
structure ConvState where
  image : Option File
  imagePreview : Option String
  instructions : String
  latexCode : String
  isConverting : Bool
  copySuccess : Bool
  error : String
  dragActive : Bool
  fileInputValue : String
deriving DecidableEq, Repr

/-- The initial hook state: everything null/empty/false. -/
def initialState : ConvState :=
  { image := none, imagePreview := none, instructions := "", latexCode := "",
    isConverting := false, copySuccess := false, error := "",
    dragActive := false, fileInputValue := "" }

/-- External configuration: the credential and the raw value of the
max-upload-size environment variable (`none` when the variable is unset). -/
structure Config where
  apiKey : String
  maxFileSizeEnv : Option String
deriving DecidableEq, Repr

/-- `getEnvVar(name, defaultValue)`: returns the variable's value, falling
back to the default when the variable is unset or empty (JavaScript `||`
treats the empty string as falsy). -/
def getEnvVar (value : Option String) (defaultValue : String) : String :=
  match value with
  | none => defaultValue
  | some s => if s = "" then defaultValue else s

/-- JavaScript `parseInt(s)` in base 10: skip leading whitespace, read an
optional sign, then a digit prefix; `none` models `NaN` (empty digit
prefix). -/
def parseIntJS (s : String) : Option Int :=
  let l := s.toList.dropWhile Char.isWhitespace
  let signAndRest : Int × List Char :=
    match l with
    | '-' :: rest => (-1, rest)
    | '+' :: rest => (1, rest)
    | _ => (1, l)
  let ds := signAndRest.2.takeWhile Char.isDigit
  if ds = [] then none
  else some (signAndRest.1 * (ds.foldl (fun acc c => acc * 10 + (c.toNat - 48)) 0 : Nat))

/-- `MAX_FILE_SIZE = parseInt(getEnvVar('REACT_APP_MAX_FILE_SIZE_MB','25')) * 1024 * 1024`.
`none` models `NaN` (multiplying `NaN` stays `NaN`). -/
def MAX_FILE_SIZE (cfg : Config) : Option Int :=
  (parseIntJS (getEnvVar cfg.maxFileSizeEnv "25")).map (fun n => n * (1024 * 1024))

/-- The MIME allow-list `SUPPORTED_FORMATS` (line 26 of the source). -/
def SUPPORTED_FORMATS : List String :=
  ["image/png", "image/jpeg", "image/jpg", "image/gif", "image/webp"]

/-- JavaScript `a > b` where `b` may be `NaN`: any comparison against `NaN`
is false. -/
def jsGt (a : Int) (b : Option Int) : Bool :=
  match b with
  | none => false
  | some m => a > m

/-- The oversize message (line 38).  The JavaScript renders the two sizes
with float division and `toFixed(2)`; the numeric rendering is abstracted to
integer division, which no claim inspects. -/
def sizeErrorMessage (maxFileSize : Option Int) (size : Nat) : String :=
  "File size must be less than " ++ toString ((maxFileSize.getD 0) / (1024 * 1024)) ++
    "MB. Current size: " ++ toString (size / (1024 * 1024)) ++ "MB"

/-- `validateFile(file)` (lines 28-42): `none` means valid, `some msg` the
rejection message. -/
def validateFile (maxFileSize : Option Int) (file : Option File) : Option String :=
  match file with
  | none => some "No file selected"
  | some f =>
    if ¬ (SUPPORTED_FORMATS.contains f.type) then
      some "Please upload a valid image file (PNG, JPG, JPEG, GIF, WebP)"
    else if jsGt (f.size : Int) maxFileSize then
      some (sizeErrorMessage maxFileSize f.size)
    else
      none

/-- Outcome of the preview `FileReader` started by `handleImageUpload`:
`onload` with the data URL, or `onerror`. -/
inductive ReadResult where
  | ok (dataUrl : String)
  | fail
deriving DecidableEq, Repr

/-- `handleImageUpload(file)` (lines 44-65): validate; on failure set only
the error and return (previous `latexCode` is NOT cleared); on success store
the image, clear error and previous result, then read the preview. -/
def handleImageUpload (maxFileSize : Option Int) (read : ReadResult)
    (s : ConvState) (file : Option File) : ConvState :=
  match validateFile maxFileSize file with
  | some validationError => { s with error := validationError }
  | none =>
    let s1 := { s with image := file, error := "", latexCode := "" }
    match read with
    | ReadResult.ok dataUrl => { s1 with imagePreview := some dataUrl }
    | ReadResult.fail => { s1 with error := "Failed to read the image file" }

/-- Substring containment, JavaScript `String.prototype.includes`. -/
def strIncludes (s sub : String) : Bool :=
  decide (sub.toList <:+: s.toList)

/-- JavaScript `String.prototype.trim`: drop leading and trailing
whitespace. -/
def jsTrim (s : String) : String :=
  String.mk (((s.toList.dropWhile Char.isWhitespace).reverse.dropWhile Char.isWhitespace).reverse)

/-- JavaScript `o || d` for an optional string: the default is used when the
value is absent or empty (falsy). -/
def jsOrDefault (o : Option String) (d : String) : String :=
  match o with
  | none => d
  | some s => if s = "" then d else s

/-- One content block of the inference-service response body. -/
structure ContentBlock where
  text : Option String
deriving DecidableEq, Repr

/-- The parsed JSON success body: `data.content` is a list of content
blocks, or absent. -/
structure ApiResponse where
  content : Option (List ContentBlock)
deriving DecidableEq, Repr

/-- The text of the first content block, `none` when `data.content` is
absent, empty, or its first block has no `text` field. -/
def firstBlockText (data : ApiResponse) : Option String :=
  match data.content with
  | none => none
  | some [] => none
  | some (b :: _) => b.text

/-- The check `!data.content || !data.content[0] || !data.content[0].text`
(line 203): `none` means the check throws; a present-but-empty `text` is
falsy in JavaScript, so it also fails the check. -/
def responseText (data : ApiResponse) : Option String :=
  match firstBlockText data with
  | none => none
  | some t => if t = "" then none else some t

/-- The resolution of the awaits of one live conversion attempt: the base64
read fails, `fetch` rejects at transport level (message `Failed to fetch`),
`fetch` resolves with a non-ok status (`detail` is the parsed
`errorData.error?.message`, `none` when the body fails to parse or has no
such field), or `fetch` resolves ok with a parsed body. -/
inductive LiveOutcome where
  | readFail
  | transportFail
  | httpError (status : Nat) (detail : Option String)
  | httpSuccess (data : ApiResponse)
deriving DecidableEq, Repr

/-- The message of the error thrown on a non-ok response (line 198). -/
def apiRequestFailedMessage (status : Nat) (detail : Option String) : String :=
  "API request failed: " ++ toString status ++ " - " ++ jsOrDefault detail "Unknown error"

/-- The catch block (lines 210-223): dispatch on substrings of the caught
error's message, in order, falling through to the generic message. -/
def mapCatchError (msg : String) : String :=
  if strIncludes msg "401" = true then
    "Invalid API key. Please check your Anthropic API key in the .env.local file."
  else if strIncludes msg "403" = true then
    "Access forbidden. Please check your API key permissions."
  else if strIncludes msg "429" = true then
    "Rate limit exceeded. Please wait a moment and try again."
  else if strIncludes msg "Failed to fetch" = true then
    "Network error. Please check your internet connection and try again."
  else
    "Failed to convert image to LaTeX: " ++ msg

/-- The hardcoded demo output (lines 109-129).  Literal braces are written
with hex escapes. -/
def demoLatex : String :=
  "% Demo LaTeX output - Add your API key for real conversion\n" ++
  "\\documentclass\x7barticle\x7d\n" ++
  "\\usepackage\x7bamsmath\x7d\n" ++
  "\\usepackage\x7bamsfonts\x7d\n\n" ++
  "\\begin\x7bdocument\x7d\n\n" ++
  "% This is a demo response. To get real conversions:\n" ++
  "% 1. Add your Anthropic API key to .env.local\n" ++
  "% 2. Set REACT_APP_ANTHROPIC_API_KEY=your_key_here\n\n" ++
  "\\begin\x7bequation\x7d\n" ++
  "    E = mc^2\n" ++
  "\\end\x7bequation\x7d\n\n" ++
  "\\begin\x7balign\x7d\n" ++
  "    \\nabla \\cdot \\vec\x7bE\x7d &= \\frac\x7b\\rho\x7d\x7b\\epsilon_0\x7d \\\\\n" ++
  "    \\nabla \\cdot \\vec\x7bB\x7d &= 0\n" ++
  "\\end\x7balign\x7d\n\n" ++
  "\\end\x7bdocument\x7d"

/-- Result of one invocation of `convertToLatex`: the new state, and whether
the outbound `fetch` was issued. -/
structure ConvertResult where
  state : ConvState
  networkCall : Bool
deriving DecidableEq, Repr

/-- `convertToLatex()` (lines 93-227).  Guard: no image → set error and
return.  Otherwise set `isConverting`, clear error and result; with no
credential take the demo branch (no network); otherwise resolve the awaits
per `env`.  The `finally` clause clears `isConverting` on every path that
entered the `try`. -/
def convertToLatex (cfg : Config) (env : LiveOutcome) (s : ConvState) : ConvertResult :=
  match s.image with
  | none => { state := { s with error := "Please upload an image first" }, networkCall := false }
  | some _image =>
    let s1 := { s with isConverting := true, error := "", latexCode := "" }
    if cfg.apiKey = "" then
      { state := { s1 with latexCode := demoLatex, isConverting := false }, networkCall := false }
    else
      match env with
      | LiveOutcome.readFail =>
        { state := { s1 with error := mapCatchError "Failed to read file", isConverting := false },
          networkCall := false }
      | LiveOutcome.transportFail =>
        { state := { s1 with error := mapCatchError "Failed to fetch", isConverting := false },
          networkCall := true }
      | LiveOutcome.httpError status detail =>
        { state :=
            { s1 with
              error := mapCatchError (apiRequestFailedMessage status detail),
              isConverting := false },
          networkCall := true }
      | LiveOutcome.httpSuccess data =>
        match responseText data with
        | none =>
          { state :=
              { s1 with
                error := mapCatchError "Invalid response format from API",
                isConverting := false },
            networkCall := true }
        | some t =>
          { state := { s1 with latexCode := jsTrim t, isConverting := false }, networkCall := true }

/-- Outcome of the clipboard write attempted by `copyToClipboard`. -/
inductive ClipboardOutcome where
  | ok
  | fail
deriving DecidableEq, Repr

/-- `copyToClipboard()` (lines 229-247): no-op when there is no result;
otherwise both the primary path and the manual fallback set the copied
acknowledgment.  The 2000 ms auto-clear timer is not modelled. -/
def copyToClipboard (outcome : ClipboardOutcome) (s : ConvState) : ConvState :=
  if s.latexCode = "" then s
  else
    match outcome with
    | ClipboardOutcome.ok => { s with copySuccess := true }
    | ClipboardOutcome.fail => { s with copySuccess := true }

/-- `resetTool()` (lines 249-259): clear image, preview, result,
instructions, error and the copied acknowledgment, and blank the file-input
value. -/
def resetTool (s : ConvState) : ConvState :=
  { s with
    image := none, imagePreview := none, latexCode := "",
    instructions := "", error := "", copySuccess := false, fileInputValue := "" }

/-- One user-visible operation of the component, paired with the resolution
of the asynchronous work it spawns. -/
inductive Op where
  | upload (file : Option File) (read : ReadResult)
  | convert (env : LiveOutcome)
  | copy (outcome : ClipboardOutcome)
  | reset
deriving DecidableEq, Repr

/-- Apply one operation to the component state. -/
def applyOp (cfg : Config) (s : ConvState) (op : Op) : ConvState :=
  match op with
  | Op.upload file read => handleImageUpload (MAX_FILE_SIZE cfg) read s file
  | Op.convert env => (convertToLatex cfg env s).state
  | Op.copy outcome => copyToClipboard outcome s
  | Op.reset => resetTool s

/-- Run a sequence of operations from a state. -/
def run (cfg : Config) (ops : List Op) (s : ConvState) : ConvState :=
  ops.foldl (applyOp cfg) s

/-- An operation whose upload (if it is one) passes validation. -/
def validOp (cfg : Config) (op : Op) : Bool :=
  match op with
  | Op.upload file _ => validateFile (MAX_FILE_SIZE cfg) file == none
  | _ => true

/-- The state invariant maintained by every operation except an upload that
fails validation: the result and the error are not both non-empty, and a
non-empty result implies an image is held. -/
def stateInv (s : ConvState) : Prop :=
  (s.latexCode = "" ∨ s.error = "") ∧ (s.latexCode ≠ "" → s.image ≠ none)

/-- A valid upload fixture: a small PNG. -/
def goodFile : File :=
  { name := "equation.png", type := "image/png", size := 1024 }

/-- An invalid upload fixture: a text file, MIME type outside the
allow-list. -/
def badFile : File :=
  { name := "notes.txt", type := "text/plain", size := 1024 }

/-- Demo-mode configuration: no credential, size variable unset. -/
def cfgDemo : Config := { apiKey := "", maxFileSizeEnv := none }

/-- Live configuration: a credential is present, size variable unset. -/
def cfgLive : Config := { apiKey := "sk-test", maxFileSizeEnv := none }

/-- A reachable state showing the demo result: upload a valid file, then
convert in demo mode. -/
def stateWithResult : ConvState :=
  run cfgDemo
    [Op.upload (some goodFile) (ReadResult.ok "data:image/png;base64,AAAA"),
     Op.convert (LiveOutcome.httpSuccess { content := none })]
    initialState

/-- A reachable state holding an image under the live configuration: one
valid upload. -/
def stateWithImage : ConvState :=
  run cfgLive
    [Op.upload (some goodFile) (ReadResult.ok "data:image/png;base64,AAAA")]
    initialState

/-- C9: from every state, `resetTool` leaves image, preview, result, error,
instructions, the copy acknowledgment and the file-input value all
empty/default, and `resetTool` is idempotent. -/
theorem resetTool_clears_and_idempotent (s : ConvState) :
    (resetTool s).image = none ∧ (resetTool s).imagePreview = none ∧
    (resetTool s).latexCode = "" ∧ (resetTool s).error = "" ∧
    (resetTool s).instructions = "" ∧ (resetTool s).copySuccess = false ∧
    (resetTool s).fileInputValue = "" ∧
    resetTool (resetTool s) = resetTool s := by
  simp [resetTool]

/-- C8: whenever a conversion attempt starts (an image is present), the
`isConverting` flag is false in the resulting state, on every path: demo
early return, success, mapped HTTP error, transport failure, read failure,
malformed response. -/
theorem convertToLatex_clears_isConverting (cfg : Config) (env : LiveOutcome)
    (s : ConvState) (img : File) (hi : s.image = some img) :
    (convertToLatex cfg env s).state.isConverting = false := by
  by_cases hk : cfg.apiKey = ""
  · simp [convertToLatex, hi, hk]
  · cases env with
    | readFail => simp [convertToLatex, hi, hk]
    | transportFail => simp [convertToLatex, hi, hk]
    | httpError status detail => simp [convertToLatex, hi, hk]
    | httpSuccess data =>
      cases h : responseText data <;> simp [convertToLatex, hi, hk, h]

/-- Witness for C8 at a concrete reachable state and outcome. -/
theorem convertToLatex_clears_isConverting_witness :
    (convertToLatex cfgLive LiveOutcome.transportFail stateWithImage).state.isConverting = false :=
  convertToLatex_clears_isConverting cfgLive LiveOutcome.transportFail stateWithImage goodFile
    (by decide)

/-- C3: with no credential configured and an image present, conversion makes
no network call, stores the fixed demo text as the result, and leaves the
error empty — for every outcome environment. -/
theorem demoMode_conversion (cfg : Config) (env : LiveOutcome) (s : ConvState)
    (img : File) (hkey : cfg.apiKey = "") (hi : s.image = some img) :
    (convertToLatex cfg env s).networkCall = false ∧
    (convertToLatex cfg env s).state.latexCode = demoLatex ∧
    (convertToLatex cfg env s).state.error = "" := by
  simp [convertToLatex, hi, hkey]

/-- Witness for C3 at a concrete reachable state. -/
theorem demoMode_conversion_witness :
    (convertToLatex cfgDemo LiveOutcome.transportFail stateWithResult).networkCall = false ∧
    (convertToLatex cfgDemo LiveOutcome.transportFail stateWithResult).state.latexCode = demoLatex ∧
    (convertToLatex cfgDemo LiveOutcome.transportFail stateWithResult).state.error = "" :=
  demoMode_conversion cfgDemo LiveOutcome.transportFail stateWithResult goodFile rfl (by decide)

/-- C5: a file whose MIME type is outside `SUPPORTED_FORMATS` is rejected
with the descriptive format message, whatever its size. -/
theorem validateFile_rejects_unsupported_type (maxFileSize : Option Int) (f : File)
    (h : f.type ∉ SUPPORTED_FORMATS) :
    validateFile maxFileSize (some f) =
      some "Please upload a valid image file (PNG, JPG, JPEG, GIF, WebP)" := by
  simp [validateFile, h]

/-- Witness for C5: a text file is rejected under the default ceiling. -/
theorem validateFile_rejects_unsupported_type_witness :
    validateFile (some 26214400) (some badFile) =
      some "Please upload a valid image file (PNG, JPG, JPEG, GIF, WebP)" :=
  validateFile_rejects_unsupported_type (some 26214400) badFile (by decide)

/-- C6: for an allowed MIME type and a numeric ceiling, validation accepts
exactly when the byte size is at or under the ceiling; a file exactly at the
ceiling is accepted and a file one byte over is rejected. -/
theorem validateFile_size_boundary (ceiling : Nat) (f : File)
    (h : f.type ∈ SUPPORTED_FORMATS) :
    (validateFile (some (ceiling : Int)) (some f) = none ↔ f.size ≤ ceiling) ∧
    validateFile (some (ceiling : Int)) (some { f with size := ceiling }) = none ∧
    validateFile (some (ceiling : Int)) (some { f with size := ceiling + 1 }) ≠ none := by
  refine ⟨?_, ?_, ?_⟩
  · simp [validateFile, h, jsGt]
  · simp [validateFile, h, jsGt]
  · simp [validateFile, h, jsGt]

/-- Witness for C6 at the default 25 MB ceiling and a PNG. -/
theorem validateFile_size_boundary_witness :
    (validateFile (some ((26214400 : Nat) : Int)) (some goodFile) = none ↔ goodFile.size ≤ 26214400) ∧
    validateFile (some ((26214400 : Nat) : Int)) (some { goodFile with size := 26214400 }) = none ∧
    validateFile (some ((26214400 : Nat) : Int)) (some { goodFile with size := 26214400 + 1 }) ≠ none :=
  validateFile_size_boundary 26214400 goodFile (by decide)

/-- C10: when the configured size string does not parse to a number
(`parseInt` yields `NaN`), the size comparison is always false, so every
file with an allowed MIME type passes validation, whatever its size. -/
theorem nanCeiling_accepts_every_size (cfg : Config) (f : File)
    (hparse : parseIntJS (getEnvVar cfg.maxFileSizeEnv "25") = none)
    (htype : f.type ∈ SUPPORTED_FORMATS) :
    validateFile (MAX_FILE_SIZE cfg) (some f) = none := by
  simp [validateFile, htype, MAX_FILE_SIZE, hparse, jsGt]

/-- Witness for C10: the string `huge` parses to `NaN`, and a terabyte PNG
is accepted. -/
theorem nanCeiling_accepts_every_size_witness :
    validateFile (MAX_FILE_SIZE { apiKey := "", maxFileSizeEnv := some "huge" })
      (some { name := "big.png", type := "image/png", size := 1000000000000 }) = none :=
  nanCeiling_accepts_every_size { apiKey := "", maxFileSizeEnv := some "huge" }
    { name := "big.png", type := "image/png", size := 1000000000000 }
    (by decide) (by decide)

/-- C7: on a successful HTTP response with a credential configured, if the
first content block carries a `text` field the stored result is that text
trimmed, and if the `text` field is missing (no content, empty content list,
or no `text`) the generic invalid-response error is reported instead. -/
theorem conversion_success_extraction (cfg : Config) (s : ConvState) (img : File)
    (data : ApiResponse) (hk : cfg.apiKey ≠ "") (hi : s.image = some img) :
    (∀ t, firstBlockText data = some t →
        (convertToLatex cfg (LiveOutcome.httpSuccess data) s).state.latexCode = jsTrim t) ∧
    (firstBlockText data = none →
        (convertToLatex cfg (LiveOutcome.httpSuccess data) s).state.error =
          "Failed to convert image to LaTeX: Invalid response format from API" ∧
        (convertToLatex cfg (LiveOutcome.httpSuccess data) s).state.latexCode = "") := by
  constructor
  · intro t ht
    by_cases h0 : t = ""
    · subst h0
      simp [convertToLatex, hi, hk, responseText, ht]
      decide
    · simp [convertToLatex, hi, hk, responseText, ht, h0]
  · intro h
    have hrt : responseText data = none := by simp [responseText, h]
    constructor
    · simp [convertToLatex, hi, hk, hrt]
      decide
    · simp [convertToLatex, hi, hk, hrt]

/-- Witness for C7: a body whose first block carries padded text is trimmed
into the result. -/
theorem conversion_success_extraction_witness :
    (convertToLatex cfgLive
      (LiveOutcome.httpSuccess { content := some [{ text := some "  E = mc^2  " }] })
      stateWithImage).state.latexCode = jsTrim "  E = mc^2  " :=
  (conversion_success_extraction cfgLive stateWithImage goodFile
    { content := some [{ text := some "  E = mc^2  " }] }
    (by decide) (by decide)).1 "  E = mc^2  " rfl

/-- C4 (amended): the displayed error for a non-ok response is chosen by
substring tests on the composed text `API request failed: status - detail`,
tried in the order 401, 403, 429, `Failed to fetch`.  With no parsed detail,
401, 403 and 429 map to their specific messages and 500 to the generic one;
when the composed text contains none of the four substrings the generic
message is shown; and a 429 response whose detail contains `401` yields the
invalid-credential message, not the rate-limit one. -/
theorem httpError_message_dispatch (cfg : Config) (s : ConvState) (img : File)
    (hk : cfg.apiKey ≠ "") (hi : s.image = some img) :
    ((convertToLatex cfg (LiveOutcome.httpError 401 none) s).state.error =
      "Invalid API key. Please check your Anthropic API key in the .env.local file.") ∧
    ((convertToLatex cfg (LiveOutcome.httpError 403 none) s).state.error =
      "Access forbidden. Please check your API key permissions.") ∧
    ((convertToLatex cfg (LiveOutcome.httpError 429 none) s).state.error =
      "Rate limit exceeded. Please wait a moment and try again.") ∧
    ((convertToLatex cfg (LiveOutcome.httpError 500 none) s).state.error =
      "Failed to convert image to LaTeX: API request failed: 500 - Unknown error") ∧
    ((convertToLatex cfg
        (LiveOutcome.httpError 429 (some "see the 401 documentation")) s).state.error =
      "Invalid API key. Please check your Anthropic API key in the .env.local file.") ∧
    (∀ status detail,
      strIncludes (apiRequestFailedMessage status detail) "401" = false →
      strIncludes (apiRequestFailedMessage status detail) "403" = false →
      strIncludes (apiRequestFailedMessage status detail) "429" = false →
      strIncludes (apiRequestFailedMessage status detail) "Failed to fetch" = false →
      (convertToLatex cfg (LiveOutcome.httpError status detail) s).state.error =
        "Failed to convert image to LaTeX: " ++ apiRequestFailedMessage status detail) := by
  refine ⟨?_, ?_, ?_, ?_, ?_, ?_⟩
  · simp [convertToLatex, hi, hk]
    decide
  · simp [convertToLatex, hi, hk]
    decide
  · simp [convertToLatex, hi, hk]
    decide
  · simp [convertToLatex, hi, hk]
    decide
  · simp [convertToLatex, hi, hk]
    decide
  · intro status detail h1 h2 h3 h4
    simp [convertToLatex, hi, hk, mapCatchError, h1, h2, h3, h4]

/-- Witness for C4 (amended), at a concrete live state. -/
theorem httpError_message_dispatch_witness :
    (convertToLatex cfgLive (LiveOutcome.httpError 429 none) stateWithImage).state.error =
      "Rate limit exceeded. Please wait a moment and try again." :=
  (httpError_message_dispatch cfgLive stateWithImage goodFile (by decide) (by decide)).2.2.1

/-- Counterexample to C4 as stated: an HTTP 429 response whose parsed error
detail contains the substring `401` is displayed with the invalid-credential
message, not the rate-limit message. -/
theorem http429_detail_counterexample :
    (convertToLatex cfgLive
        (LiveOutcome.httpError 429 (some "see the 401 documentation"))
        stateWithImage).state.error =
      "Invalid API key. Please check your Anthropic API key in the .env.local file." ∧
    ("Invalid API key. Please check your Anthropic API key in the .env.local file." : String) ≠
      "Rate limit exceeded. Please wait a moment and try again." := by
  refine ⟨by decide, by decide⟩

/-- C1 (amended): a new upload clears the previous result and error only
after its validation succeeds; when validation fails, the handler returns
early, setting the error to the validation message and leaving every other
field — in particular the previous result — unchanged. -/
theorem upload_clears_only_after_valid (maxFileSize : Option Int) (read : ReadResult)
    (s : ConvState) (file : Option File) :
    (∀ e, validateFile maxFileSize file = some e →
        handleImageUpload maxFileSize read s file = { s with error := e }) ∧
    (validateFile maxFileSize file = none →
        (handleImageUpload maxFileSize read s file).latexCode = "" ∧
        (handleImageUpload maxFileSize read s file).image = file ∧
        ((handleImageUpload maxFileSize read s file).error = "" ∨
         (handleImageUpload maxFileSize read s file).error = "Failed to read the image file")) := by
  constructor
  · intro e he
    simp [handleImageUpload, he]
  · intro hv
    cases read <;> simp [handleImageUpload, hv]

/-- Witness for C1 (amended): a failed upload over a displayed demo result
keeps the whole state except the error field. -/
theorem upload_clears_only_after_valid_witness :
    handleImageUpload (MAX_FILE_SIZE cfgDemo) (ReadResult.ok "p") stateWithResult (some badFile) =
      { stateWithResult with
        error := "Please upload a valid image file (PNG, JPG, JPEG, GIF, WebP)" } :=
  (upload_clears_only_after_valid (MAX_FILE_SIZE cfgDemo) (ReadResult.ok "p")
    stateWithResult (some badFile)).1
    "Please upload a valid image file (PNG, JPG, JPEG, GIF, WebP)" (by decide)

/-- Counterexample to C1 as stated: from the reachable state displaying the
demo result, uploading a file that fails validation leaves the stale result
displayed (it is not cleared before or during validation) while the error is
set. -/
theorem stale_result_on_invalid_upload :
    stateWithResult.latexCode = demoLatex ∧
    demoLatex ≠ "" ∧
    (handleImageUpload (MAX_FILE_SIZE cfgDemo) (ReadResult.ok "p")
        stateWithResult (some badFile)).latexCode = demoLatex ∧
    (handleImageUpload (MAX_FILE_SIZE cfgDemo) (ReadResult.ok "p")
        stateWithResult (some badFile)).error ≠ "" := by
  refine ⟨by decide, by decide, by decide, by decide⟩

/-- Helper: one operation preserves `stateInv`, provided an upload operation
passes validation. -/
theorem stateInv_applyOp (cfg : Config) (s : ConvState) (op : Op)
    (hI : stateInv s) (hop : validOp cfg op = true) :
    stateInv (applyOp cfg s op) := by
  cases op with
  | upload file read =>
    have hv : validateFile (MAX_FILE_SIZE cfg) file = none := by
      simpa [validOp] using hop
    cases read <;> simp [applyOp, handleImageUpload, hv, stateInv]
  | convert env =>
    cases hi : s.image with
    | none =>
      have hl : s.latexCode = "" := by
        by_contra h
        exact (hI.2 h) hi
      simp [applyOp, convertToLatex, hi, stateInv, hl]
    | some img =>
      by_cases hk : cfg.apiKey = ""
      · simp [applyOp, convertToLatex, hi, hk, stateInv]
      · cases env with
        | readFail => simp [applyOp, convertToLatex, hi, hk, stateInv]
        | transportFail => simp [applyOp, convertToLatex, hi, hk, stateInv]
        | httpError status detail => simp [applyOp, convertToLatex, hi, hk, stateInv]
        | httpSuccess data =>
          cases h : responseText data <;>
            simp [applyOp, convertToLatex, hi, hk, h, stateInv]
  | copy outcome =>
    by_cases hl : s.latexCode = ""
    · simpa [applyOp, copyToClipboard, hl] using hI
    · cases outcome <;>
        (simp [applyOp, copyToClipboard, hl, stateInv] at hI ⊢; exact hI)
  | reset =>
    simp [applyOp, resetTool, stateInv]

/-- Helper: `stateInv` is preserved along any run of operations whose
uploads all pass validation. -/
theorem stateInv_run (cfg : Config) (ops : List Op) (s : ConvState)
    (hI : stateInv s) (hops : ∀ op ∈ ops, validOp cfg op = true) :
    stateInv (run cfg ops s) := by
  induction ops generalizing s with
  | nil => simpa [run] using hI
  | cons op rest ih =>
    have h1 : validOp cfg op = true := hops op (by simp)
    have h2 : ∀ o ∈ rest, validOp cfg o = true := fun o ho => hops o (by simp [ho])
    simpa [run] using ih (applyOp cfg s op) (stateInv_applyOp cfg s op hI h1) h2

/-- C2 (amended): after every sequence of operations from the initial state
in which each upload passes validation, the result and the error are never
both non-empty.  (An upload failing validation while a result is displayed
violates this; see the counterexample.) -/
theorem result_error_mutually_exclusive (cfg : Config) (ops : List Op)
    (hops : ∀ op ∈ ops, validOp cfg op = true) :
    (run cfg ops initialState).latexCode = "" ∨ (run cfg ops initialState).error = "" := by
  have hI : stateInv initialState := by
    constructor
    · exact Or.inl rfl
    · intro h
      exact absurd rfl h
  exact (stateInv_run cfg ops initialState hI hops).1

/-- Witness for C2 (amended): a full upload-convert-copy-reset session in
demo mode keeps the two fields mutually exclusive. -/
theorem result_error_mutually_exclusive_witness :
    (run cfgDemo
        [Op.upload (some goodFile) (ReadResult.ok "data:image/png;base64,AAAA"),
         Op.convert (LiveOutcome.httpSuccess { content := none }),
         Op.copy ClipboardOutcome.fail,
         Op.reset]
        initialState).latexCode = "" ∨
    (run cfgDemo
        [Op.upload (some goodFile) (ReadResult.ok "data:image/png;base64,AAAA"),
         Op.convert (LiveOutcome.httpSuccess { content := none }),
         Op.copy ClipboardOutcome.fail,
         Op.reset]
        initialState).error = "" :=
  result_error_mutually_exclusive cfgDemo
    [Op.upload (some goodFile) (ReadResult.ok "data:image/png;base64,AAAA"),
     Op.convert (LiveOutcome.httpSuccess { content := none }),
     Op.copy ClipboardOutcome.fail,
     Op.reset]
    (by decide)

/-- Counterexample to C2 as stated: upload a valid file, convert in demo
mode, then upload an invalid file — the resulting reachable state has the
result and the error simultaneously non-empty. -/
theorem result_error_both_nonempty :
    (run cfgDemo
        [Op.upload (some goodFile) (ReadResult.ok "data:image/png;base64,AAAA"),
         Op.convert (LiveOutcome.httpSuccess { content := none }),
         Op.upload (some badFile) (ReadResult.ok "p")]
        initialState).latexCode ≠ "" ∧
    (run cfgDemo
        [Op.upload (some goodFile) (ReadResult.ok "data:image/png;base64,AAAA"),
         Op.convert (LiveOutcome.httpSuccess { content := none }),
         Op.upload (some badFile) (ReadResult.ok "p")]
        initialState).error ≠ "" := by
  refine ⟨by decide, by decide⟩
